import Mathlib

/-!
Verification development for the MediaTrend-Scraper repository.

The definitions below are a shallow embedding of the Python sources:

* `src/worker.py` (`process_media_list`, `tmdb_search`, `tmdb_get_tvdb_id`)
* `src/sources/netflix.py` (`country_name_from_code`, `fetch_tudum_html`)
* `src/sources/flixpatrol.py` (`_get_flixpatrol_html_with_selenium`)
* `src/targets/radarr.py` (`radarr_lookup_existing`, `radarr_add_movie`)
* `src/targets/sonarr.py` (`sonarr_lookup_existing`, `sonarr_add_series`)

External I/O (HTTP responses, the browser session, the TMDb API, the
Radarr/Sonarr APIs) is represented by deterministic oracle functions in an
`Oracles` record; a run's observable network interactions are reified as a
`List NetCall` trace so that claims of the form "no network call happens"
can be stated and settled.
-/

/-- Mirrors `utils.types.MediaType`: the two media kinds handled by the
pipeline. -/
inductive MediaType where
  | movie : MediaType
  | series : MediaType
deriving DecidableEq, Repr

/-- Per-target configuration section, mirroring the fields of
`config["radarr"]` and `config["sonarr"]` read by the workers. -/
structure TargetConfig where
  url : String
  apiKey : String
  qualityProfileId : Nat
  rootFolderPath : String
  searchOnAdd : Bool
deriving DecidableEq, Repr

/-- General configuration section, mirroring `config["general"]`. -/
structure GeneralConfig where
  tmdbApiKey : String
  countries : List String
deriving DecidableEq, Repr

/-- The configuration dictionary passed to `process_media_list`. -/
structure Config where
  general : GeneralConfig
  radarr : TargetConfig
  sonarr : TargetConfig
deriving DecidableEq, Repr

/-- First TMDb search result, as consumed by `process_media_list`:
`tmdb_match["id"]` and `tmdb_match.get("release_date")`.  A missing
`release_date` key is `none` (the worker substitutes the default string
"0000" for it). -/
structure TmdbMatch where
  id : Nat
  releaseDate : Option String
deriving DecidableEq, Repr

/-- The JSON body `radarr_add_movie` posts to `/api/v3/movie`; the `year`
field is `none` exactly when the key is left out of the payload. -/
structure MoviePayload where
  tmdbId : Nat
  title : String
  qualityProfileId : Nat
  rootFolderPath : String
  monitored : Bool
  searchForMovie : Bool
  year : Option Nat
deriving DecidableEq, Repr

/-- Network interactions a run can perform, reified for tracing. -/
inductive NetCall where
  | libraryList : NetCall
  | scrape : String → NetCall
  | httpGet : String → NetCall
  | tmdbSearch : String → NetCall
  | tmdbExternalIds : Nat → NetCall
  | seriesLookup : Nat → NetCall
  | moviePost : MoviePayload → NetCall
  | seriesPost : Nat → NetCall
deriving DecidableEq, Repr

/-- Result of one source-adapter invocation for one country.  The failure
constructors enumerate the non-success cases the spec names; the adapter
code (`scrape_netflix`, `scrape_flixpatrol`) converts every one of them to
an empty title list instead of raising. -/
inductive AdapterOutcome where
  | ok : List String → AdapterOutcome
  | pageAbsent : AdapterOutcome
  | parseFailure : AdapterOutcome
  | transportError : AdapterOutcome
  | automationError : AdapterOutcome
deriving DecidableEq, Repr

/-- Titles an adapter outcome delivers to the worker: `scrape_netflix` and
`scrape_flixpatrol` return `[]` whenever the HTML fetch yields `None`
(page absent, transport or automation error) or parsing finds nothing, and
never raise into the worker loop. -/
def titlesOf : AdapterOutcome → List String
  | AdapterOutcome.ok ts => ts
  | AdapterOutcome.pageAbsent => []
  | AdapterOutcome.parseFailure => []
  | AdapterOutcome.transportError => []
  | AdapterOutcome.automationError => []

/-- Deterministic environment of one run: library responses, adapter
results, TMDb responses and Radarr/Sonarr add responses. -/
structure Oracles where
  adapter : String → AdapterOutcome
  radarrLibrary : Option (List Nat)
  sonarrLibrary : Option (List Nat)
  search : String → Option TmdbMatch
  externalIds : Nat → Option Nat
  seriesLookupOk : Nat → Bool
  movieAddOk : Nat → Bool
  seriesAddOk : Nat → Bool

/-- Mirrors `radarr.radarr_lookup_existing`: builds the id index
`{int(m["tmdbId"]): m for m in data if m.get("tmdbId")}` from the
list-all response, and returns the empty index when the request failed
(`data` is `None`) or returned no entries.  Only the key set matters to
the worker, so the index is the list of (deduplicated, non-falsy) ids. -/
def radarr_lookup_existing (resp : Option (List Nat)) : List Nat :=
  match resp with
  | none => []
  | some ms => ((ms.filter (fun i => i ≠ 0)).dedup)

/-- Mirrors `sonarr.sonarr_lookup_existing`: same shape as the Radarr
variant, keyed by `tvdbId`. -/
def sonarr_lookup_existing (resp : Option (List Nat)) : List Nat :=
  match resp with
  | none => []
  | some ms => ((ms.filter (fun i => i ≠ 0)).dedup)

/-- Mirrors `tmdb_get_tvdb_id`: returns the `tvdb_id` field of the
`/tv/{id}/external_ids` response when present and non-falsy, else `None`.
The argument is the raw `data.get("tvdb_id")` value (`none` when the
request failed or the field is absent). -/
def tmdb_get_tvdb_id (raw : Option Nat) : Option Nat :=
  match raw with
  | none => none
  | some v => if v = 0 then none else some v

/-- Python string slicing `s[:n]` on ASCII content, implemented
structurally over the character list. -/
def strTake (s : String) (n : Nat) : String :=
  String.mk (s.data.take n)

/-- Python `str.isdigit` on ASCII content: true iff the string is
non-empty and all characters are digits. -/
def pyIsDigit (s : String) : Bool :=
  !s.data.isEmpty && s.data.all Char.isDigit

/-- Decimal value of a digit string, as Python `int` computes it for an
all-digit argument (48 is the code point of the digit zero). -/
def digitsVal (l : List Char) : Nat :=
  l.foldl (fun acc c => acc * 10 + (c.toNat - 48)) 0

/-- Mirrors the year extraction in `process_media_list`:
`year_str = tmdb_match.get("release_date", "0000")[:4]` followed by
`year = int(year_str) if year_str.isdigit() else 0`. -/
def computeYear (releaseDate : Option String) : Nat :=
  let yearStr := strTake (releaseDate.getD "0000") 4
  if pyIsDigit yearStr then digitsVal yearStr.data else 0

/-- Mirrors the payload construction in `radarr.radarr_add_movie`: the
defaults come from the `radarr` config section, `monitored` is always
true, and `year` is added only when `year > 0`. -/
def radarr_movie_payload (cfg : Config) (tmdbId : Nat) (title : String) (year : Nat) :
    MoviePayload :=
  { tmdbId := tmdbId
    title := title
    qualityProfileId := cfg.radarr.qualityProfileId
    rootFolderPath := cfg.radarr.rootFolderPath
    monitored := true
    searchForMovie := cfg.radarr.searchOnAdd
    year := if year > 0 then some year else none }

/-- Mirrors `radarr.radarr_add_movie` as seen by the worker: builds the
payload from the config defaults (with the year key left out when the
year is 0) and POSTs it once to the movie endpoint; success iff the
response carries a server id (`movieAddOk`).  Returns (success, network
calls performed). -/
def radarr_add_movie (cfg : Config) (O : Oracles) (tmdbId : Nat) (title : String)
    (year : Nat) : Bool × List NetCall :=
  (O.movieAddOk tmdbId, [NetCall.moviePost (radarr_movie_payload cfg tmdbId title year)])

/-- Mirrors `sonarr.sonarr_add_series`: first a `series/lookup` GET; when
the lookup has no result the function returns `False` without posting;
otherwise it POSTs the looked-up record and succeeds iff the response
carries a server id. -/
def sonarr_add_series (O : Oracles) (tvdbId : Nat) : Bool × List NetCall :=
  if O.seriesLookupOk tvdbId then
    (O.seriesAddOk tvdbId, [NetCall.seriesLookup tvdbId, NetCall.seriesPost tvdbId])
  else
    (false, [NetCall.seriesLookup tvdbId])

/-- How `process_media_list` classifies a single title; each branch of the
worker loop logs a distinct message for its case. -/
inductive TitleOutcome where
  | unmatched : TitleOutcome
  | skipped : TitleOutcome
  | added : TitleOutcome
  | addFailed : TitleOutcome
deriving DecidableEq, Repr

/-- Result of processing one title in the worker loop: the updated id
index, the increment of `added_count`, the branch taken, and the network
calls performed. -/
structure StepResult where
  existing : List Nat
  addedDelta : Nat
  outcome : TitleOutcome
  calls : List NetCall
deriving Repr

/-- One iteration of the worker loop for a movie run (`worker.py`,
movie branch of step 4): TMDb search, falsy-id guard, index check, then
`radarr_add_movie`; on success the id is inserted into `existing_ids`. -/
def titleStepMovie (cfg : Config) (O : Oracles) (existing : List Nat) (title : String) :
    StepResult :=
  match O.search title with
  | none => ⟨existing, 0, TitleOutcome.unmatched, [NetCall.tmdbSearch title]⟩
  | some m =>
    if m.id = 0 then ⟨existing, 0, TitleOutcome.unmatched, [NetCall.tmdbSearch title]⟩
    else if m.id ∈ existing then
      ⟨existing, 0, TitleOutcome.skipped, [NetCall.tmdbSearch title]⟩
    else
      let year := computeYear m.releaseDate
      let add := radarr_add_movie cfg O m.id title year
      if add.1 then
        ⟨m.id :: existing, 1, TitleOutcome.added, NetCall.tmdbSearch title :: add.2⟩
      else
        ⟨existing, 0, TitleOutcome.addFailed, NetCall.tmdbSearch title :: add.2⟩

/-- One iteration of the worker loop for a series run (`worker.py`,
series branch of step 4): TMDb search, falsy-id guard, TVDb
cross-reference; no TVDb id short-circuits with a warning; otherwise the
index is checked under the TVDb id and `sonarr_add_series` is invoked; on
success the TVDb id is inserted into `existing_ids`. -/
def titleStepSeries (_cfg : Config) (O : Oracles) (existing : List Nat) (title : String) :
    StepResult :=
  match O.search title with
  | none => ⟨existing, 0, TitleOutcome.unmatched, [NetCall.tmdbSearch title]⟩
  | some m =>
    if m.id = 0 then ⟨existing, 0, TitleOutcome.unmatched, [NetCall.tmdbSearch title]⟩
    else
      match tmdb_get_tvdb_id (O.externalIds m.id) with
      | none =>
        ⟨existing, 0, TitleOutcome.unmatched,
          [NetCall.tmdbSearch title, NetCall.tmdbExternalIds m.id]⟩
      | some tvdbId =>
        if tvdbId ∈ existing then
          ⟨existing, 0, TitleOutcome.skipped,
            [NetCall.tmdbSearch title, NetCall.tmdbExternalIds m.id]⟩
        else
          let add := sonarr_add_series O tvdbId
          if add.1 then
            ⟨tvdbId :: existing, 1, TitleOutcome.added,
              NetCall.tmdbSearch title :: NetCall.tmdbExternalIds m.id :: add.2⟩
          else
            ⟨existing, 0, TitleOutcome.addFailed,
              NetCall.tmdbSearch title :: NetCall.tmdbExternalIds m.id :: add.2⟩

/-- Dispatch of the per-title iteration on the media kind. -/
def titleStep (cfg : Config) (mt : MediaType) (O : Oracles) (existing : List Nat)
    (title : String) : StepResult :=
  match mt with
  | MediaType.movie => titleStepMovie cfg O existing title
  | MediaType.series => titleStepSeries cfg O existing title

/-- Cumulative result of the worker loop over a list of titles. -/
structure LoopResult where
  existing : List Nat
  added : Nat
  outcomes : List TitleOutcome
  calls : List NetCall
deriving Repr

/-- The worker loop `for title in all_titles` of `process_media_list`,
threading `existing_ids` and `added_count` through the titles in order. -/
def runLoop (cfg : Config) (mt : MediaType) (O : Oracles) :
    List Nat → List String → LoopResult
  | ex, [] => ⟨ex, 0, [], []⟩
  | ex, t :: ts =>
    let s := titleStep cfg mt O ex t
    let r := runLoop cfg mt O s.existing ts
    ⟨r.existing, s.addedDelta + r.added, s.outcome :: r.outcomes, s.calls ++ r.calls⟩

/-- Concatenation of the per-country scrape results, in country order
(the worker's `all_titles.update(titles)` accumulation). -/
def concatTitles (O : Oracles) : List String → List String
  | [] => []
  | c :: cs => titlesOf (O.adapter c) ++ concatTitles O cs

/-- The deduplicated TitleSet the worker loop iterates over
(`all_titles` is a Python set, so membership is exact string equality). -/
def scrapedTitles (O : Oracles) (countries : List String) : List String :=
  (concatTitles O countries).dedup

/-- The library index the run starts from (step 2 of the pipeline). -/
def initialIndex (mt : MediaType) (O : Oracles) : List Nat :=
  match mt with
  | MediaType.movie => radarr_lookup_existing O.radarrLibrary
  | MediaType.series => sonarr_lookup_existing O.sonarrLibrary

/-- Everything a completed run reports and did: the worker logs the count
of existing entries, the count of unique scraped titles
("Insgesamt N einzigartige Titel gefunden") and the final added count
("N neue Eintraege hinzugefuegt"); it computes and reports no matched or
skipped count, hence those fields are `none`. -/
structure RunReport where
  existingInitial : List Nat
  titles : List String
  outcomes : List TitleOutcome
  addedCount : Nat
  reportedScraped : Option Nat
  reportedMatched : Option Nat
  reportedAdded : Option Nat
  reportedSkipped : Option Nat
  trace : List NetCall
deriving Repr

/-- The report of a run that passed validation, assembled from steps 2-5
of `process_media_list`. -/
def runReportOf (cfg : Config) (mt : MediaType) (O : Oracles) : RunReport :=
  let existing := initialIndex mt O
  let titles := scrapedTitles O cfg.general.countries
  let lr := runLoop cfg mt O existing titles
  { existingInitial := existing
    titles := titles
    outcomes := lr.outcomes
    addedCount := lr.added
    reportedScraped := some titles.length
    reportedMatched := none
    reportedAdded := some lr.added
    reportedSkipped := none
    trace := NetCall.libraryList :: (cfg.general.countries.map NetCall.scrape ++ lr.calls) }

/-- Outcome of one invocation of `process_media_list`: either an early
return from the key validation (step 1, before any I/O), or a completed
run. -/
inductive RunResult where
  | aborted : String → List NetCall → RunResult
  | done : RunReport → RunResult
deriving Repr

/-- Mirrors `worker.process_media_list`: validate the TMDb key and the
api key of the target selected by the media kind (Radarr for movies,
Sonarr for series), returning early when either is empty; otherwise fetch
the existing library once, scrape every configured country into a set,
and process each unique title. -/
def process_media_list (cfg : Config) (mt : MediaType) (O : Oracles) : RunResult :=
  if cfg.general.tmdbApiKey = "" then RunResult.aborted "tmdb-api-key-missing" []
  else if (if mt = MediaType.movie then cfg.radarr else cfg.sonarr).apiKey = "" then
    RunResult.aborted "target-api-key-missing" []
  else
    RunResult.done (runReportOf cfg mt O)

/-- Whether the run stopped in the validation stage. -/
def RunResult.isAborted : RunResult → Bool
  | RunResult.aborted _ _ => true
  | RunResult.done _ => false

/-- All network calls the run performed. -/
def RunResult.runTrace : RunResult → List NetCall
  | RunResult.aborted _ tr => tr
  | RunResult.done r => r.trace

/-- The library index the run started from (empty for an aborted run,
which never fetched it). -/
def RunResult.initialIds : RunResult → List Nat
  | RunResult.aborted _ _ => []
  | RunResult.done r => r.existingInitial

/-- The scraped-titles count the run reported, if any. -/
def RunResult.scrapedReport : RunResult → Option Nat
  | RunResult.aborted _ _ => none
  | RunResult.done r => r.reportedScraped

/-- The matched count the run reported, if any. -/
def RunResult.matchedReport : RunResult → Option Nat
  | RunResult.aborted _ _ => none
  | RunResult.done r => r.reportedMatched

/-- The added count the run reported, if any. -/
def RunResult.addedReport : RunResult → Option Nat
  | RunResult.aborted _ _ => none
  | RunResult.done r => r.reportedAdded

/-- The skipped count the run reported, if any. -/
def RunResult.skippedReport : RunResult → Option Nat
  | RunResult.aborted _ _ => none
  | RunResult.done r => r.reportedSkipped

/-- Selector for TMDb search calls in a trace. -/
def searchSelector : NetCall → Option String
  | NetCall.tmdbSearch q => some q
  | _ => none

/-- The queries of all TMDb search calls in a trace, in order. -/
def searchedTitles (l : List NetCall) : List String :=
  l.filterMap searchSelector

/-- Selector for submission calls (Radarr movie POST, Sonarr series POST)
in a trace, yielding the submitted target identifier. -/
def submitSelector : NetCall → Option Nat
  | NetCall.moviePost p => some p.tmdbId
  | NetCall.seriesPost i => some i
  | _ => none

/-- The target identifiers of all submissions in a trace, in order. -/
def submittedIds (l : List NetCall) : List Nat :=
  l.filterMap submitSelector

/-- The target identifier a title resolves to in a movie run: the first
TMDb search result's id, unless the search missed or the id is falsy. -/
def resolvedMovieId (O : Oracles) (t : String) : Option Nat :=
  match O.search t with
  | none => none
  | some m => if m.id = 0 then none else some m.id

/-- Whether a submission of identifier `i` would succeed in this run's
environment: for movies the POST must return a server id; for series the
`series/lookup` must return a record and the POST must return a server
id. -/
def addOkFor (mt : MediaType) (O : Oracles) (i : Nat) : Bool :=
  match mt with
  | MediaType.movie => O.movieAddOk i
  | MediaType.series => O.seriesLookupOk i && O.seriesAddOk i

/-- Python `str.upper` on ASCII content, implemented structurally over
the character list. -/
def pyUpper (s : String) : String :=
  String.mk (s.data.map Char.toUpper)

/-- Python `str.lower` on ASCII content, implemented structurally over
the character list. -/
def pyLower (s : String) : String :=
  String.mk (s.data.map Char.toLower)

/-- Mirrors `netflix.country_name_from_code`: a fixed ISO-code table with
fallback `code.lower()` for codes not in the table. -/
def netflixCountryMapping : List (String × String) :=
  [("CH", "switzerland"), ("DE", "germany"), ("AT", "austria"), ("FR", "france"),
   ("IT", "italy"), ("ES", "spain"), ("US", "united-states"), ("GB", "united-kingdom"),
   ("UK", "united-kingdom"), ("CA", "canada"), ("NL", "netherlands"), ("BE", "belgium"),
   ("DK", "denmark"), ("SE", "sweden"), ("NO", "norway"), ("FI", "finland"),
   ("PL", "poland"), ("PT", "portugal"), ("IE", "ireland"), ("AU", "australia"),
   ("NZ", "new-zealand")]

/-- Mirrors `netflix.country_name_from_code`. -/
def country_name_from_code (code : String) : String :=
  match netflixCountryMapping.lookup (pyUpper code) with
  | some slug => slug
  | none => pyLower code

/-- The Tudum top-10 URL built by `netflix.fetch_tudum_html`. -/
def tudum_url (code : String) (mediaTypeStr : String) : String :=
  let base := "https://www.netflix.com/tudum/top10/" ++ country_name_from_code code
  if mediaTypeStr = "tv" then base ++ "/tv" else base

/-- Mirrors `netflix.fetch_tudum_html`: builds the URL from the country
code (with lowercase fallback) and unconditionally performs the HTTP GET;
the oracle supplies the response body (`none` for any failure). -/
def fetch_tudum_html (http : String → Option String) (code : String)
    (mediaTypeStr : String) : Option String × List NetCall :=
  (http (tudum_url code mediaTypeStr), [NetCall.httpGet (tudum_url code mediaTypeStr)])

/-- Mirrors the country table of
`flixpatrol._get_flixpatrol_html_with_selenium`. -/
def flixpatrolCountryMap : List (String × String) :=
  [("WORLD", "world"), ("DE", "germany"), ("CH", "switzerland"), ("AT", "austria"),
   ("US", "united-states"), ("GB", "united-kingdom"), ("FR", "france"), ("IT", "italy"),
   ("ES", "spain"), ("CA", "canada"), ("AU", "australia"), ("NL", "netherlands"),
   ("BE", "belgium"), ("PL", "poland"), ("SE", "sweden"), ("NO", "norway"),
   ("DK", "denmark")]

/-- The FlixPatrol top-10 URL built from the service and country slugs. -/
def flixpatrol_url (serviceSlug : String) (countrySlug : String) : String :=
  "https://flixpatrol.com/top10/" ++ serviceSlug ++ "/" ++ countrySlug ++ "/"

/-- Mirrors `flixpatrol._get_flixpatrol_html_with_selenium` at the
call/no-call granularity: a country code absent from the table is
rejected before the browser session is opened (`return None` with no
network interaction); a supported code drives one browser page load whose
rendered HTML the oracle supplies (`none` for 404, timeout or automation
failure). -/
def get_flixpatrol_html (browser : String → Option String) (serviceSlug : String)
    (code : String) (_mediaTypeStr : String) : Option String × List NetCall :=
  match flixpatrolCountryMap.lookup (pyUpper code) with
  | none => (none, [])
  | some slug =>
    (browser (flixpatrol_url serviceSlug slug),
     [NetCall.httpGet (flixpatrol_url serviceSlug slug)])

/-! ## Concrete environments used by witnesses and counterexamples -/

/-- A configuration with non-empty api keys everywhere, fixed target
defaults, and the given country list. -/
def mkConfig (tmdbKey : String) (countries : List String) : Config :=
  { general := { tmdbApiKey := tmdbKey, countries := countries }
    radarr := { url := "http://radarr", apiKey := "radarr-key", qualityProfileId := 1,
                rootFolderPath := "/movies", searchOnAdd := true }
    sonarr := { url := "http://sonarr", apiKey := "sonarr-key", qualityProfileId := 1,
                rootFolderPath := "/tv", searchOnAdd := true } }

/-- A neutral environment: empty libraries, no scrape results, every
remote lookup missing, every submission failing. -/
def oracleBase : Oracles :=
  { adapter := fun _ => AdapterOutcome.pageAbsent
    radarrLibrary := some []
    sonarrLibrary := some []
    search := fun _ => none
    externalIds := fun _ => none
    seriesLookupOk := fun _ => false
    movieAddOk := fun _ => false
    seriesAddOk := fun _ => false }

/-- Environment for the partial-failure scenario: the US scrape dies with
a transport error while the DE scrape returns one title. -/
def oracleIsolation : Oracles :=
  { oracleBase with
    adapter := fun c =>
      if c = "DE" then AdapterOutcome.ok ["Gamma"] else AdapterOutcome.transportError }

/-- Environment for end-to-end scenario A: US yields Alpha and Beta, DE
yields Beta and Gamma. -/
def oracleScenarioA : Oracles :=
  { oracleBase with
    adapter := fun c =>
      if c = "US" then AdapterOutcome.ok ["Alpha", "Beta"]
      else if c = "DE" then AdapterOutcome.ok ["Beta", "Gamma"]
      else AdapterOutcome.pageAbsent }

/-- Environment in which two distinct titles resolve to the same TMDb id
5 and every Radarr POST fails. -/
def oracleDoubleSubmit : Oracles :=
  { oracleBase with
    adapter := fun c => if c = "US" then AdapterOutcome.ok ["A", "B"] else AdapterOutcome.pageAbsent
    search := fun t =>
      if t = "A" then some ⟨5, none⟩ else if t = "B" then some ⟨5, none⟩ else none }

/-- Environment whose Radarr library already contains TMDb id 7, with one
scraped title resolving to that id. -/
def oraclePreExisting : Oracles :=
  { oracleBase with
    adapter := fun c => if c = "US" then AdapterOutcome.ok ["A"] else AdapterOutcome.pageAbsent
    radarrLibrary := some [7]
    search := fun t => if t = "A" then some ⟨7, none⟩ else none
    movieAddOk := fun _ => true }

/-- Environment for a series title that matches on TMDb (id 3) but has no
TVDb cross-reference. -/
def oracleNoCrossRef : Oracles :=
  { oracleBase with
    search := fun t => if t = "S" then some ⟨3, none⟩ else none }

/-- Environment for a movie title with a regular release date. -/
def oracleMovieYear : Oracles :=
  { oracleBase with
    search := fun t => if t = "M" then some ⟨11, some "2024-03-01"⟩ else none }

/-- Environment for the series double-namespace scenario: the scraped
title resolves to TMDb id 7, which is numerically present in the Sonarr
library index, and cross-references to TVDb id 9, which is not. -/
def oracleSeriesNamespaces : Oracles :=
  { oracleBase with
    adapter := fun c => if c = "US" then AdapterOutcome.ok ["A"] else AdapterOutcome.pageAbsent
    sonarrLibrary := some [7]
    search := fun t => if t = "A" then some ⟨7, none⟩ else none
    externalIds := fun i => if i = 7 then some 9 else none
    seriesLookupOk := fun i => i == 9
    seriesAddOk := fun i => i == 9 }

/-- Environment in which the Radarr library fetch fails with a transport
error while two scraped titles resolve to distinct TMDb ids. -/
def oracleLibraryDown : Oracles :=
  { oracleBase with
    adapter := fun c => if c = "US" then AdapterOutcome.ok ["A", "B"] else AdapterOutcome.pageAbsent
    radarrLibrary := none
    search := fun t =>
      if t = "A" then some ⟨1, none⟩ else if t = "B" then some ⟨2, none⟩ else none
    movieAddOk := fun _ => true }

/-! ## Helper lemmas -/

theorem searchedTitles_append (a b : List NetCall) :
    searchedTitles (a ++ b) = searchedTitles a ++ searchedTitles b := by
  simp [searchedTitles, List.filterMap_append]

theorem submittedIds_append (a b : List NetCall) :
    submittedIds (a ++ b) = submittedIds a ++ submittedIds b := by
  simp [submittedIds, List.filterMap_append]

theorem searchedTitles_map_scrape (cs : List String) :
    searchedTitles (cs.map NetCall.scrape) = [] := by
  induction cs with
  | nil => rfl
  | cons c cs _ih => simp [searchedTitles, searchSelector]

theorem submittedIds_map_scrape (cs : List String) :
    submittedIds (cs.map NetCall.scrape) = [] := by
  induction cs with
  | nil => rfl
  | cons c cs _ih => simp [submittedIds, submitSelector]

theorem titleStepMovie_shape (cfg : Config) (O : Oracles) (ex : List Nat) (t : String) :
    (submittedIds (titleStepMovie cfg O ex t).calls = [] ∧
      (titleStepMovie cfg O ex t).existing = ex) ∨
    (∃ j, ¬ j ∈ ex ∧ submittedIds (titleStepMovie cfg O ex t).calls = [j] ∧
      ((O.movieAddOk j = true ∧ (titleStepMovie cfg O ex t).existing = j :: ex) ∨
       (O.movieAddOk j = false ∧ (titleStepMovie cfg O ex t).existing = ex))) := by
  unfold titleStepMovie radarr_add_movie
  cases hs : O.search t with
  | none => left; simp [submittedIds, submitSelector]
  | some m =>
    by_cases h0 : m.id = 0
    · left; simp [h0, submittedIds, submitSelector]
    · by_cases hmem : m.id ∈ ex
      · left; simp [h0, hmem, submittedIds, submitSelector]
      · right
        refine ⟨m.id, hmem, ?_, ?_⟩
        · cases hok : O.movieAddOk m.id <;>
            simp [h0, hmem, hok, submittedIds, submitSelector, radarr_movie_payload]
        · cases hok : O.movieAddOk m.id
          · right; simp [h0, hmem, hok]
          · left; simp [h0, hmem, hok]

theorem titleStepSeries_shape (cfg : Config) (O : Oracles) (ex : List Nat) (t : String) :
    (submittedIds (titleStepSeries cfg O ex t).calls = [] ∧
      (titleStepSeries cfg O ex t).existing = ex) ∨
    (∃ j, ¬ j ∈ ex ∧ submittedIds (titleStepSeries cfg O ex t).calls = [j] ∧
      (((O.seriesLookupOk j && O.seriesAddOk j) = true ∧
          (titleStepSeries cfg O ex t).existing = j :: ex) ∨
       ((O.seriesLookupOk j && O.seriesAddOk j) = false ∧
          (titleStepSeries cfg O ex t).existing = ex))) := by
  unfold titleStepSeries sonarr_add_series
  cases hs : O.search t with
  | none => left; simp [submittedIds, submitSelector]
  | some m =>
    by_cases h0 : m.id = 0
    · left; simp [h0, submittedIds, submitSelector]
    · cases htv : tmdb_get_tvdb_id (O.externalIds m.id) with
      | none => left; simp [h0, htv, submittedIds, submitSelector]
      | some tv =>
        by_cases hmem : tv ∈ ex
        · left; simp [h0, htv, hmem, submittedIds, submitSelector]
        · cases hlk : O.seriesLookupOk tv with
          | false =>
            left; simp [h0, htv, hmem, hlk, submittedIds, submitSelector]
          | true =>
            right
            refine ⟨tv, hmem, ?_, ?_⟩
            · cases hadd : O.seriesAddOk tv <;>
                simp [h0, htv, hmem, hlk, hadd, submittedIds, submitSelector]
            · cases hadd : O.seriesAddOk tv
              · right; simp [h0, htv, hmem, hlk, hadd]
              · left; simp [h0, htv, hmem, hlk, hadd]

theorem titleStep_shape (cfg : Config) (mt : MediaType) (O : Oracles) (ex : List Nat)
    (t : String) :
    (submittedIds (titleStep cfg mt O ex t).calls = [] ∧
      (titleStep cfg mt O ex t).existing = ex) ∨
    (∃ j, ¬ j ∈ ex ∧ submittedIds (titleStep cfg mt O ex t).calls = [j] ∧
      ((addOkFor mt O j = true ∧ (titleStep cfg mt O ex t).existing = j :: ex) ∨
       (addOkFor mt O j = false ∧ (titleStep cfg mt O ex t).existing = ex))) := by
  cases mt with
  | movie => exact titleStepMovie_shape cfg O ex t
  | series => exact titleStepSeries_shape cfg O ex t

theorem titleStep_searched (cfg : Config) (mt : MediaType) (O : Oracles) (ex : List Nat)
    (t : String) :
    searchedTitles (titleStep cfg mt O ex t).calls = [t] := by
  cases mt with
  | movie =>
    show searchedTitles (titleStepMovie cfg O ex t).calls = [t]
    unfold titleStepMovie radarr_add_movie
    cases hs : O.search t with
    | none => simp [searchedTitles, searchSelector]
    | some m =>
      by_cases h0 : m.id = 0
      · simp [h0, searchedTitles, searchSelector]
      · by_cases hmem : m.id ∈ ex
        · simp [h0, hmem, searchedTitles, searchSelector]
        · cases hok : O.movieAddOk m.id <;>
            simp [h0, hmem, hok, searchedTitles, searchSelector]
  | series =>
    show searchedTitles (titleStepSeries cfg O ex t).calls = [t]
    unfold titleStepSeries sonarr_add_series
    cases hs : O.search t with
    | none => simp [searchedTitles, searchSelector]
    | some m =>
      by_cases h0 : m.id = 0
      · simp [h0, searchedTitles, searchSelector]
      · cases htv : tmdb_get_tvdb_id (O.externalIds m.id) with
        | none => simp [h0, htv, searchedTitles, searchSelector]
        | some tv =>
          by_cases hmem : tv ∈ ex
          · simp [h0, htv, hmem, searchedTitles, searchSelector]
          · cases hlk : O.seriesLookupOk tv with
            | false => simp [h0, htv, hmem, hlk, searchedTitles, searchSelector]
            | true =>
              cases hadd : O.seriesAddOk tv <;>
                simp [h0, htv, hmem, hlk, hadd, searchedTitles, searchSelector]

theorem titleStep_mono (cfg : Config) (mt : MediaType) (O : Oracles) (ex : List Nat)
    (t : String) (i : Nat) (h : i ∈ ex) : i ∈ (titleStep cfg mt O ex t).existing := by
  rcases titleStep_shape cfg mt O ex t with ⟨_, he⟩ | ⟨j, _, _, hc⟩
  · rw [he]; exact h
  · rcases hc with ⟨_, he⟩ | ⟨_, he⟩
    · rw [he]; exact List.mem_cons_of_mem _ h
    · rw [he]; exact h

theorem runLoop_mono (cfg : Config) (mt : MediaType) (O : Oracles) :
    ∀ (ts : List String) (ex : List Nat) (i : Nat),
      i ∈ ex → i ∈ (runLoop cfg mt O ex ts).existing := by
  intro ts
  induction ts with
  | nil => intro ex i h; simpa [runLoop] using h
  | cons t ts ih =>
    intro ex i h
    simp only [runLoop]
    exact ih _ i (titleStep_mono cfg mt O ex t i h)

theorem runLoop_searched (cfg : Config) (mt : MediaType) (O : Oracles) :
    ∀ (ts : List String) (ex : List Nat),
      searchedTitles (runLoop cfg mt O ex ts).calls = ts := by
  intro ts
  induction ts with
  | nil => intro ex; simp [runLoop, searchedTitles]
  | cons t ts ih =>
    intro ex
    simp only [runLoop]
    rw [searchedTitles_append, titleStep_searched, ih]
    rfl

theorem runLoop_preserved_not_submitted (cfg : Config) (mt : MediaType) (O : Oracles) :
    ∀ (ts : List String) (ex : List Nat) (i : Nat),
      i ∈ ex → ¬ i ∈ submittedIds (runLoop cfg mt O ex ts).calls := by
  intro ts
  induction ts with
  | nil => intro ex i _; simp [runLoop, submittedIds]
  | cons t ts ih =>
    intro ex i h
    simp only [runLoop]
    rw [submittedIds_append, List.mem_append]
    rintro (hin | hin)
    · rcases titleStep_shape cfg mt O ex t with ⟨hsub, _⟩ | ⟨j, hj, hsub, _⟩
      · rw [hsub] at hin; exact absurd hin (List.not_mem_nil i)
      · rw [hsub] at hin
        rcases List.mem_singleton.mp hin with rfl
        exact hj h
    · exact ih _ i (titleStep_mono cfg mt O ex t i h) hin

theorem runLoop_submit_count (cfg : Config) (mt : MediaType) (O : Oracles) :
    ∀ (ts : List String) (ex : List Nat) (j : Nat), addOkFor mt O j = true →
      (submittedIds (runLoop cfg mt O ex ts).calls).count j ≤ 1 ∧
      (j ∈ ex → (submittedIds (runLoop cfg mt O ex ts).calls).count j = 0) := by
  intro ts
  induction ts with
  | nil => intro ex j _; simp [runLoop, submittedIds]
  | cons t ts ih =>
    intro ex j hok
    simp only [runLoop]
    rw [submittedIds_append, List.count_append]
    rcases titleStep_shape cfg mt O ex t with ⟨hsub, he⟩ | ⟨k, hk, hsub, hc⟩
    · rw [hsub]
      have hrest := ih (titleStep cfg mt O ex t).existing j hok
      constructor
      · simpa using hrest.1
      · intro hmem
        have : j ∈ (titleStep cfg mt O ex t).existing := titleStep_mono cfg mt O ex t j hmem
        simpa using hrest.2 this
    · rw [hsub]
      by_cases hjk : j = k
      · subst hjk
        rcases hc with ⟨hkok, he⟩ | ⟨hkok, _⟩
        · have hrest := ih (titleStep cfg mt O ex t).existing j hok
          have hmem : j ∈ (titleStep cfg mt O ex t).existing := by
            rw [he]; exact List.mem_cons_self j ex
          have h0 := hrest.2 hmem
          constructor
          · simp [h0, List.count_singleton]
          · intro hmemex; exact absurd hmemex hk
        · rw [hok] at hkok; exact absurd hkok (by simp)
      · have hcnt : ([k] : List Nat).count j = 0 := by
          simp [List.count_singleton, hjk]
        have hrest := ih (titleStep cfg mt O ex t).existing j hok
        constructor
        · rw [hcnt]; simpa using hrest.1
        · intro hmem
          have : j ∈ (titleStep cfg mt O ex t).existing :=
            titleStep_mono cfg mt O ex t j hmem
          rw [hcnt]
          simpa using hrest.2 this

theorem concatTitles_mem (O : Oracles) :
    ∀ (cs : List String) (t : String),
      t ∈ concatTitles O cs ↔ ∃ c, c ∈ cs ∧ t ∈ titlesOf (O.adapter c) := by
  intro cs
  induction cs with
  | nil => intro t; simp [concatTitles]
  | cons c cs ih =>
    intro t
    simp only [concatTitles, List.mem_append, ih, List.mem_cons]
    constructor
    · rintro (h | ⟨c2, hc2, ht2⟩)
      · exact ⟨c, Or.inl rfl, h⟩
      · exact ⟨c2, Or.inr hc2, ht2⟩
    · rintro ⟨c2, (rfl | hc2), ht2⟩
      · exact Or.inl ht2
      · exact Or.inr ⟨c2, hc2, ht2⟩

theorem scrapedTitles_mem (O : Oracles) (cs : List String) (t : String) :
    t ∈ scrapedTitles O cs ↔ ∃ c, c ∈ cs ∧ t ∈ titlesOf (O.adapter c) := by
  rw [scrapedTitles, List.mem_dedup]
  exact concatTitles_mem O cs t

theorem process_split (cfg : Config) (mt : MediaType) (O : Oracles) :
    process_media_list cfg mt O = RunResult.aborted "tmdb-api-key-missing" [] ∨
    process_media_list cfg mt O = RunResult.aborted "target-api-key-missing" [] ∨
    process_media_list cfg mt O = RunResult.done (runReportOf cfg mt O) := by
  unfold process_media_list
  by_cases h1 : cfg.general.tmdbApiKey = ""
  · left; rw [if_pos h1]
  · by_cases h2 : (if mt = MediaType.movie then cfg.radarr else cfg.sonarr).apiKey = ""
    · right; left; rw [if_neg h1, if_pos h2]
    · right; right; rw [if_neg h1, if_neg h2]

theorem process_done_of_keys (cfg : Config) (mt : MediaType) (O : Oracles)
    (h1 : cfg.general.tmdbApiKey ≠ "")
    (h2 : (if mt = MediaType.movie then cfg.radarr else cfg.sonarr).apiKey ≠ "") :
    process_media_list cfg mt O = RunResult.done (runReportOf cfg mt O) := by
  unfold process_media_list
  rw [if_neg h1, if_neg h2]

theorem runReport_trace (cfg : Config) (mt : MediaType) (O : Oracles) :
    (runReportOf cfg mt O).trace =
      NetCall.libraryList :: (cfg.general.countries.map NetCall.scrape ++
        (runLoop cfg mt O (initialIndex mt O) (scrapedTitles O cfg.general.countries)).calls) :=
  rfl

theorem searchedTitles_runReport (cfg : Config) (mt : MediaType) (O : Oracles) :
    searchedTitles (runReportOf cfg mt O).trace = scrapedTitles O cfg.general.countries := by
  rw [runReport_trace]
  show searchedTitles (NetCall.libraryList ::
    (cfg.general.countries.map NetCall.scrape ++ _)) = _
  rw [show ∀ (l : List NetCall), searchedTitles (NetCall.libraryList :: l) = searchedTitles l
        from fun l => rfl]
  rw [searchedTitles_append, searchedTitles_map_scrape, runLoop_searched]
  rfl

theorem submittedIds_runReport (cfg : Config) (mt : MediaType) (O : Oracles) :
    submittedIds (runReportOf cfg mt O).trace =
      submittedIds (runLoop cfg mt O (initialIndex mt O)
        (scrapedTitles O cfg.general.countries)).calls := by
  rw [runReport_trace]
  rw [show ∀ (l : List NetCall), submittedIds (NetCall.libraryList :: l) = submittedIds l
        from fun l => rfl]
  rw [submittedIds_append, submittedIds_map_scrape]
  rfl

theorem resolvedMovieId_eq (O : Oracles) (t : String) (i : Nat)
    (h : resolvedMovieId O t = some i) :
    ∃ m, O.search t = some m ∧ m.id = i ∧ i ≠ 0 := by
  unfold resolvedMovieId at h
  cases hs : O.search t with
  | none => rw [hs] at h; simp at h
  | some m =>
    rw [hs] at h
    by_cases h0 : m.id = 0
    · simp [h0] at h
    · simp [h0] at h
      refine ⟨m, rfl, h, ?_⟩
      intro hz
      rw [← h] at hz
      exact h0 hz

theorem titleStepMovie_posts (cfg : Config) (O : Oracles) (ex : List Nat) (t : String)
    (i : Nat) (h : resolvedMovieId O t = some i) (hmem : ¬ i ∈ ex) :
    submittedIds (titleStepMovie cfg O ex t).calls = [i] := by
  rcases resolvedMovieId_eq O t i h with ⟨m, hs, hid, _⟩
  subst hid
  unfold titleStepMovie radarr_add_movie
  rw [hs]
  have h0 : ¬ m.id = 0 := by
    intro hz
    rw [hz] at h
    simp [resolvedMovieId, hs] at h
  cases hok : O.movieAddOk m.id <;>
    simp [h0, hmem, hok, submittedIds, submitSelector, radarr_movie_payload]

theorem titleStepMovie_existing_shape (cfg : Config) (O : Oracles) (ex : List Nat)
    (t : String) :
    (titleStepMovie cfg O ex t).existing = ex ∨
    (∃ j, resolvedMovieId O t = some j ∧
      submittedIds (titleStepMovie cfg O ex t).calls = [j] ∧
      (titleStepMovie cfg O ex t).existing = j :: ex) := by
  unfold titleStepMovie radarr_add_movie
  cases hs : O.search t with
  | none => left; simp
  | some m =>
    by_cases h0 : m.id = 0
    · left; simp [h0]
    · by_cases hmem : m.id ∈ ex
      · left; simp [h0, hmem]
      · cases hok : O.movieAddOk m.id with
        | false => left; simp [h0, hmem, hok]
        | true =>
          right
          refine ⟨m.id, ?_, ?_, ?_⟩
          · simp [resolvedMovieId, hs, h0]
          · simp [h0, hmem, hok, submittedIds, submitSelector, radarr_movie_payload]
          · simp [h0, hmem, hok]

theorem runLoop_movie_submits (cfg : Config) (O : Oracles) :
    ∀ (ts : List String) (ex : List Nat) (t : String) (i : Nat),
      t ∈ ts → resolvedMovieId O t = some i →
      i ∈ ex ∨ i ∈ submittedIds (runLoop cfg MediaType.movie O ex ts).calls := by
  intro ts
  induction ts with
  | nil => intro ex t i h _; exact absurd h (List.not_mem_nil t)
  | cons u ts ih =>
    intro ex t i hmem hres
    simp only [runLoop]
    rw [submittedIds_append, List.mem_append]
    have hstepeq : titleStep cfg MediaType.movie O ex u = titleStepMovie cfg O ex u := rfl
    rcases List.mem_cons.mp hmem with rfl | hmem2
    · by_cases hex : i ∈ ex
      · exact Or.inl hex
      · refine Or.inr (Or.inl ?_)
        rw [hstepeq, titleStepMovie_posts cfg O ex t i hres hex]
        exact List.mem_singleton.mpr rfl
    · rcases ih (titleStep cfg MediaType.movie O ex u).existing t i hmem2 hres with hex2 | hsub
      · rw [hstepeq] at hex2
        rcases titleStepMovie_existing_shape cfg O ex u with he | ⟨j, _, hsubj, he⟩
        · rw [he] at hex2; exact Or.inl hex2
        · rw [he] at hex2
          rcases List.mem_cons.mp hex2 with rfl | hex3
          · refine Or.inr (Or.inl ?_)
            rw [hstepeq, hsubj]
            exact List.mem_singleton.mpr rfl
          · exact Or.inl hex3
      · exact Or.inr (Or.inr hsub)

/-! ## Claims -/

/-- Claim C1: for every configuration in which the TMDb api key is empty,
or the api key of the target system selected by the media kind (Radarr
for movies, Sonarr for series) is empty, `process_media_list` returns
during validation with an empty network trace: no library fetch, no
scrape, no resolver call and no submission happens. -/
theorem validation_abort_no_network (cfg : Config) (mt : MediaType) (O : Oracles)
    (h : cfg.general.tmdbApiKey = "" ∨
      (if mt = MediaType.movie then cfg.radarr else cfg.sonarr).apiKey = "") :
    (process_media_list cfg mt O).isAborted = true ∧
    (process_media_list cfg mt O).runTrace = [] := by
  unfold process_media_list
  rcases h with h | h
  · rw [if_pos h]; exact ⟨rfl, rfl⟩
  · by_cases h1 : cfg.general.tmdbApiKey = ""
    · rw [if_pos h1]; exact ⟨rfl, rfl⟩
    · rw [if_neg h1, if_pos h]; exact ⟨rfl, rfl⟩

/-- Witness for `validation_abort_no_network`: a run with an empty TMDb
key aborts with an empty trace. -/
theorem validation_abort_no_network_witness :
    (process_media_list (mkConfig "" ["US"]) MediaType.movie oracleBase).isAborted = true ∧
    (process_media_list (mkConfig "" ["US"]) MediaType.movie oracleBase).runTrace = [] :=
  validation_abort_no_network (mkConfig "" ["US"]) MediaType.movie oracleBase
    (Or.inl (by decide))

/-- Claim C2: a per-country adapter failure (page absent, parse failure,
transport or automation error) contributes an empty title list and never
prevents a title scraped for another configured country from entering the
TitleSet and being passed to the TMDb resolver; the run still completes. -/
theorem country_failure_isolation (cfg : Config) (mt : MediaType) (O : Oracles)
    (c t : String)
    (h1 : cfg.general.tmdbApiKey ≠ "")
    (h2 : (if mt = MediaType.movie then cfg.radarr else cfg.sonarr).apiKey ≠ "")
    (hc : c ∈ cfg.general.countries) (ht : t ∈ titlesOf (O.adapter c)) :
    t ∈ scrapedTitles O cfg.general.countries ∧
    t ∈ searchedTitles (process_media_list cfg mt O).runTrace ∧
    (process_media_list cfg mt O).isAborted = false ∧
    titlesOf AdapterOutcome.pageAbsent = [] ∧
    titlesOf AdapterOutcome.parseFailure = [] ∧
    titlesOf AdapterOutcome.transportError = [] ∧
    titlesOf AdapterOutcome.automationError = [] := by
  have hdone := process_done_of_keys cfg mt O h1 h2
  have hmem : t ∈ scrapedTitles O cfg.general.countries :=
    (scrapedTitles_mem O cfg.general.countries t).mpr ⟨c, hc, ht⟩
  refine ⟨hmem, ?_, ?_, rfl, rfl, rfl, rfl⟩
  · rw [hdone]
    show t ∈ searchedTitles (runReportOf cfg mt O).trace
    rw [searchedTitles_runReport]
    exact hmem
  · rw [hdone]; rfl

/-- Witness for `country_failure_isolation`: with the US scrape failing
on a transport error, the DE title Gamma still reaches the TitleSet and
the resolver. -/
theorem country_failure_isolation_witness :
    oracleIsolation.adapter "US" = AdapterOutcome.transportError ∧
    ("Gamma" ∈ scrapedTitles oracleIsolation ["US", "DE"] ∧
     "Gamma" ∈ searchedTitles
       (process_media_list (mkConfig "k" ["US", "DE"]) MediaType.movie oracleIsolation).runTrace ∧
     (process_media_list (mkConfig "k" ["US", "DE"]) MediaType.movie oracleIsolation).isAborted
       = false ∧
     titlesOf AdapterOutcome.pageAbsent = [] ∧
     titlesOf AdapterOutcome.parseFailure = [] ∧
     titlesOf AdapterOutcome.transportError = [] ∧
     titlesOf AdapterOutcome.automationError = []) :=
  ⟨by decide,
   country_failure_isolation (mkConfig "k" ["US", "DE"]) MediaType.movie oracleIsolation
     "DE" "Gamma" (by decide) (by decide) (by decide) (by decide)⟩

/-- Claim C5: a series title that matches on TMDb search but whose TVDb
cross-reference lookup yields nothing is classified unmatched and the
loop state is unchanged, with zero calls to the Sonarr target for that
title: neither the series lookup nor the series POST appears among its
calls. -/
theorem series_missing_crossref_unmatched (cfg : Config) (O : Oracles) (ex : List Nat)
    (t : String) (m : TmdbMatch)
    (hs : O.search t = some m) (h0 : m.id ≠ 0)
    (htv : tmdb_get_tvdb_id (O.externalIds m.id) = none) :
    titleStepSeries cfg O ex t =
      ⟨ex, 0, TitleOutcome.unmatched,
        [NetCall.tmdbSearch t, NetCall.tmdbExternalIds m.id]⟩ ∧
    (∀ i, ¬ NetCall.seriesLookup i ∈ (titleStepSeries cfg O ex t).calls ∧
          ¬ NetCall.seriesPost i ∈ (titleStepSeries cfg O ex t).calls) := by
  have heq : titleStepSeries cfg O ex t =
      ⟨ex, 0, TitleOutcome.unmatched,
        [NetCall.tmdbSearch t, NetCall.tmdbExternalIds m.id]⟩ := by
    unfold titleStepSeries
    rw [hs]
    simp [h0, htv]
  refine ⟨heq, ?_⟩
  intro i
  rw [heq]
  constructor <;> simp

/-- Witness for `series_missing_crossref_unmatched`: the title S resolves
to TMDb id 3, has no TVDb id, and its step touches nothing. -/
theorem series_missing_crossref_unmatched_witness :
    titleStepSeries (mkConfig "k" []) oracleNoCrossRef [] "S" =
      ⟨[], 0, TitleOutcome.unmatched,
        [NetCall.tmdbSearch "S", NetCall.tmdbExternalIds 3]⟩ :=
  (series_missing_crossref_unmatched (mkConfig "k" []) oracleNoCrossRef [] "S" ⟨3, none⟩
    (by decide) (by decide) (by decide)).1

/-- Claim C7 counterexample: the country code JP is not in the
static-HTML (Netflix/Tudum) adapter's lookup table, yet the adapter does
not reject the request: it builds the URL from the lowercase fallback
slug and performs the HTTP GET. -/
theorem netflix_unsupported_code_fetches_cex :
    netflixCountryMapping.lookup (pyUpper "JP") = none ∧
    (fetch_tudum_html (fun _ => none) "JP" "film").2 =
      [NetCall.httpGet "https://www.netflix.com/tudum/top10/jp"] ∧
    (fetch_tudum_html (fun _ => none) "JP" "film").2 ≠ [] := by
  refine ⟨by decide, by decide, by decide⟩

/-- Claim C7 (amended): the automation-driven (FlixPatrol) adapter
rejects a country code absent from its table before any network
interaction, while the static-HTML (Netflix/Tudum) adapter falls back to
the lowercased code as URL slug and always performs exactly one HTTP
GET. -/
theorem adapter_country_rejection (browser http : String → Option String)
    (serviceSlug code mtStr : String)
    (hfp : flixpatrolCountryMap.lookup (pyUpper code) = none)
    (hnf : netflixCountryMapping.lookup (pyUpper code) = none) :
    get_flixpatrol_html browser serviceSlug code mtStr = (none, []) ∧
    (fetch_tudum_html http code mtStr).2 = [NetCall.httpGet (tudum_url code mtStr)] ∧
    country_name_from_code code = pyLower code := by
  refine ⟨?_, rfl, ?_⟩
  · unfold get_flixpatrol_html
    rw [hfp]
  · unfold country_name_from_code
    rw [hnf]

/-- Witness for `adapter_country_rejection` at the unsupported code JP. -/
theorem adapter_country_rejection_witness :
    get_flixpatrol_html (fun _ => none) "amazon-prime" "JP" "movies" = (none, []) ∧
    (fetch_tudum_html (fun _ => none) "JP" "film").2 =
      [NetCall.httpGet (tudum_url "JP" "film")] ∧
    country_name_from_code "JP" = pyLower "JP" := by
  have h := adapter_country_rejection (fun _ => none) (fun _ => none)
    "amazon-prime" "JP" "movies" (by decide) (by decide)
  have h2 := adapter_country_rejection (fun _ => none) (fun _ => none)
    "amazon-prime" "JP" "film" (by decide) (by decide)
  exact ⟨h.1, h2.2.1, h.2.2⟩

/-- Claim C3: the per-country scrape results are merged into a TitleSet
deduplicated under exact string equality (membership is equivalent to
membership in some configured country's scrape result, and the processed
list has no duplicates), and a completed run invokes the TMDb resolver
exactly once per unique raw title: the trace holds exactly one search
call for each TitleSet member and none for any other string. -/
theorem titleset_dedup_single_resolve (cfg : Config) (mt : MediaType) (O : Oracles)
    (t : String)
    (h1 : cfg.general.tmdbApiKey ≠ "")
    (h2 : (if mt = MediaType.movie then cfg.radarr else cfg.sonarr).apiKey ≠ "") :
    (searchedTitles (process_media_list cfg mt O).runTrace).count t =
      (if t ∈ scrapedTitles O cfg.general.countries then 1 else 0) ∧
    (t ∈ scrapedTitles O cfg.general.countries ↔
      ∃ c, c ∈ cfg.general.countries ∧ t ∈ titlesOf (O.adapter c)) ∧
    (scrapedTitles O cfg.general.countries).Nodup := by
  have hdone := process_done_of_keys cfg mt O h1 h2
  have hnd : (scrapedTitles O cfg.general.countries).Nodup := List.nodup_dedup _
  refine ⟨?_, scrapedTitles_mem O cfg.general.countries t, hnd⟩
  rw [hdone]
  show (searchedTitles (runReportOf cfg mt O).trace).count t = _
  rw [searchedTitles_runReport]
  by_cases hmem : t ∈ scrapedTitles O cfg.general.countries
  · rw [if_pos hmem]
    exact List.count_eq_one_of_mem hnd hmem
  · rw [if_neg hmem]
    exact List.count_eq_zero_of_not_mem hmem

/-- Witness for `titleset_dedup_single_resolve`, end-to-end scenario A:
countries US and DE scraping Alpha+Beta and Beta+Gamma merge into the
three-element TitleSet and the completed run performs exactly three
resolver calls, with Beta searched once, not twice. -/
theorem titleset_dedup_single_resolve_witness :
    scrapedTitles oracleScenarioA ["US", "DE"] = ["Alpha", "Beta", "Gamma"] ∧
    (searchedTitles (process_media_list (mkConfig "k" ["US", "DE"]) MediaType.movie
        oracleScenarioA).runTrace).length = 3 ∧
    (searchedTitles (process_media_list (mkConfig "k" ["US", "DE"]) MediaType.movie
        oracleScenarioA).runTrace).count "Beta" =
      (if "Beta" ∈ scrapedTitles oracleScenarioA ["US", "DE"] then 1 else 0) ∧
    (if "Beta" ∈ scrapedTitles oracleScenarioA ["US", "DE"] then 1 else 0) = 1 :=
  ⟨by decide, by decide,
   (titleset_dedup_single_resolve (mkConfig "k" ["US", "DE"]) MediaType.movie
     oracleScenarioA "Beta" (by decide) (by decide)).1,
   by decide⟩

/-- Claim C4 counterexample: two distinct scraped titles resolve to the
same TMDb id 5 and every Radarr POST fails, so id 5 is submitted twice
within one run (a failed submission does not enter the index, which only
receives identifiers on success). -/
theorem resubmission_on_failure_cex :
    submittedIds (process_media_list (mkConfig "k" ["US"]) MediaType.movie
      oracleDoubleSubmit).runTrace = [5, 5] ∧
    ¬ ((submittedIds (process_media_list (mkConfig "k" ["US"]) MediaType.movie
      oracleDoubleSubmit).runTrace).count 5 ≤ 1) := by
  refine ⟨by decide, by decide⟩

/-- Claim C4 (amended): a target identifier present in the
ExistingLibraryIndex at the start of the run is never submitted; a movie
title resolving to an id already in the index is classified skipped with
no submission call; when a submission of id j succeeds, j is inserted
into the index by the very step that submitted it (hence before the next
title is processed); and an identifier whose submissions succeed in this
environment is submitted at most once per run — only an identifier whose
submission fails can be submitted again for a later title. -/
theorem index_guard_invariants :
    (∀ (cfg : Config) (mt : MediaType) (O : Oracles) (i : Nat),
      i ∈ (process_media_list cfg mt O).initialIds →
      ¬ i ∈ submittedIds (process_media_list cfg mt O).runTrace) ∧
    (∀ (cfg : Config) (O : Oracles) (ex : List Nat) (t : String) (m : TmdbMatch),
      O.search t = some m → m.id ≠ 0 → m.id ∈ ex →
      titleStepMovie cfg O ex t =
        ⟨ex, 0, TitleOutcome.skipped, [NetCall.tmdbSearch t]⟩) ∧
    (∀ (cfg : Config) (mt : MediaType) (O : Oracles) (ex : List Nat) (t : String) (j : Nat),
      j ∈ submittedIds (titleStep cfg mt O ex t).calls → addOkFor mt O j = true →
      (titleStep cfg mt O ex t).existing = j :: ex) ∧
    (∀ (cfg : Config) (mt : MediaType) (O : Oracles) (j : Nat),
      addOkFor mt O j = true →
      (submittedIds (process_media_list cfg mt O).runTrace).count j ≤ 1) := by
  refine ⟨?_, ?_, ?_, ?_⟩
  · intro cfg mt O i hmem hsub
    rcases process_split cfg mt O with h | h | h
    · rw [h] at hmem; exact absurd hmem (List.not_mem_nil i)
    · rw [h] at hmem; exact absurd hmem (List.not_mem_nil i)
    · rw [h] at hmem hsub
      have hmem2 : i ∈ initialIndex mt O := hmem
      have hsub2 : i ∈ submittedIds (runReportOf cfg mt O).trace := hsub
      rw [submittedIds_runReport] at hsub2
      exact runLoop_preserved_not_submitted cfg mt O
        (scrapedTitles O cfg.general.countries) (initialIndex mt O) i hmem2 hsub2
  · intro cfg O ex t m hs h0 hmem
    unfold titleStepMovie
    rw [hs]
    simp [h0, hmem]
  · intro cfg mt O ex t j hsub hok
    rcases titleStep_shape cfg mt O ex t with ⟨hempty, _⟩ | ⟨k, _, hk, hc⟩
    · rw [hempty] at hsub; exact absurd hsub (List.not_mem_nil j)
    · rw [hk] at hsub
      rcases List.mem_singleton.mp hsub with rfl
      rcases hc with ⟨_, he⟩ | ⟨hfalse, _⟩
      · exact he
      · rw [hok] at hfalse; exact absurd hfalse (by simp)
  · intro cfg mt O j hok
    rcases process_split cfg mt O with h | h | h
    · rw [h]; simp [RunResult.runTrace, submittedIds]
    · rw [h]; simp [RunResult.runTrace, submittedIds]
    · rw [h]
      show (submittedIds (runReportOf cfg mt O).trace).count j ≤ 1
      rw [submittedIds_runReport]
      exact (runLoop_submit_count cfg mt O (scrapedTitles O cfg.general.countries)
        (initialIndex mt O) j hok).1

/-- Witness for `index_guard_invariants`: TMDb id 7 is in the Radarr
library before the run and is never submitted during the run. -/
theorem index_guard_invariants_witness :
    7 ∈ (process_media_list (mkConfig "k" ["US"]) MediaType.movie
      oraclePreExisting).initialIds ∧
    ¬ 7 ∈ submittedIds (process_media_list (mkConfig "k" ["US"]) MediaType.movie
      oraclePreExisting).runTrace :=
  ⟨by decide,
   index_guard_invariants.1 (mkConfig "k" ["US"]) MediaType.movie oraclePreExisting 7
     (by decide)⟩

/-- Claim C6: for every movie submission the year field is omitted from
the add payload exactly when the computed year is 0; the computed year is
the decimal value of the first four characters of the resolver's
release-date string when they are all digits and 0 otherwise
("2024-03-01" yields year 2024 in the payload, "0000-00-00" and the empty
string yield the year key omitted); and the payload a movie step posts is
exactly the one built from the year computed from the match's release
date. -/
theorem movie_year_payload :
    (∀ (cfg : Config) (tmdbId : Nat) (title : String) (rd : Option String),
      ((radarr_movie_payload cfg tmdbId title (computeYear rd)).year = none ↔
        computeYear rd = 0)) ∧
    (∀ s : String, computeYear (some s) =
      if pyIsDigit (strTake s 4) then digitsVal (strTake s 4).data else 0) ∧
    computeYear (some "2024-03-01") = 2024 ∧
    computeYear (some "0000-00-00") = 0 ∧
    computeYear (some "") = 0 ∧
    computeYear none = 0 ∧
    (∀ (cfg : Config) (tmdbId : Nat) (title : String),
      (radarr_movie_payload cfg tmdbId title (computeYear (some "2024-03-01"))).year =
        some 2024 ∧
      (radarr_movie_payload cfg tmdbId title (computeYear (some "0000-00-00"))).year =
        none ∧
      (radarr_movie_payload cfg tmdbId title (computeYear (some ""))).year = none) ∧
    (∀ (cfg : Config) (O : Oracles) (ex : List Nat) (t : String) (m : TmdbMatch),
      O.search t = some m → m.id ≠ 0 → ¬ m.id ∈ ex →
      (titleStepMovie cfg O ex t).calls =
        [NetCall.tmdbSearch t,
         NetCall.moviePost (radarr_movie_payload cfg m.id t (computeYear m.releaseDate))]) := by
  refine ⟨?_, fun s => rfl, by decide, by decide, by decide, by decide, ?_, ?_⟩
  · intro cfg tmdbId title rd
    by_cases h : computeYear rd = 0
    · simp [radarr_movie_payload, h]
    · simp [radarr_movie_payload, h, Nat.pos_of_ne_zero h]
  · intro cfg tmdbId title
    refine ⟨?_, ?_, ?_⟩ <;> simp [radarr_movie_payload] <;> decide
  · intro cfg O ex t m hs h0 hmem
    unfold titleStepMovie radarr_add_movie
    rw [hs]
    cases hok : O.movieAddOk m.id <;> simp [h0, hmem, hok]

/-- Witness for `movie_year_payload`: the movie step for a title with
release date 2024-03-01 posts the payload carrying year 2024. -/
theorem movie_year_payload_witness :
    (titleStepMovie (mkConfig "k" []) oracleMovieYear [] "M").calls =
      [NetCall.tmdbSearch "M",
       NetCall.moviePost (radarr_movie_payload (mkConfig "k" []) 11 "M"
         (computeYear (some "2024-03-01")))] ∧
    (radarr_movie_payload (mkConfig "k" []) 11 "M"
      (computeYear (some "2024-03-01"))).year = some 2024 :=
  ⟨movie_year_payload.2.2.2.2.2.2.2 (mkConfig "k" []) oracleMovieYear [] "M" ⟨11, some "2024-03-01"⟩
     (by decide) (by decide) (by decide),
   by decide⟩

/-- Claim C8 counterexample: a series title resolving to TMDb id 7,
numerically present in the Sonarr library index, is still submitted
because only its TVDb cross-reference id 9 is checked against the index;
the primary-namespace id is never consulted. -/
theorem series_primary_id_not_checked_cex :
    oracleSeriesNamespaces.search "A" = some ⟨7, none⟩ ∧
    (7 : Nat) ∈ sonarr_lookup_existing oracleSeriesNamespaces.sonarrLibrary ∧
    tmdb_get_tvdb_id (oracleSeriesNamespaces.externalIds 7) = some 9 ∧
    submittedIds (process_media_list (mkConfig "k" ["US"]) MediaType.series
      oracleSeriesNamespaces).runTrace = [9] := by
  refine ⟨by decide, by decide, by decide, by decide⟩

/-- Claim C8 (amended): for a series title whose cross-reference id is
obtained, the pipeline consults the ExistingLibraryIndex only under the
cross-reference (TVDb) id: when that id is in the index the title is
skipped with no submission, and when it is not a submission is attempted
(gated only by the Sonarr lookup), with no condition on whether the
primary TMDb id occurs in the index. -/
theorem series_crossref_only_check (cfg : Config) (O : Oracles) (ex : List Nat)
    (t : String) (m : TmdbMatch) (tv : Nat)
    (hs : O.search t = some m) (h0 : m.id ≠ 0)
    (htv : tmdb_get_tvdb_id (O.externalIds m.id) = some tv) :
    (tv ∈ ex →
      titleStepSeries cfg O ex t =
        ⟨ex, 0, TitleOutcome.skipped,
          [NetCall.tmdbSearch t, NetCall.tmdbExternalIds m.id]⟩) ∧
    (¬ tv ∈ ex →
      submittedIds (titleStepSeries cfg O ex t).calls =
        (if O.seriesLookupOk tv then [tv] else [])) := by
  constructor
  · intro hmem
    unfold titleStepSeries
    rw [hs]
    simp [h0, htv, hmem]
  · intro hmem
    unfold titleStepSeries sonarr_add_series
    rw [hs]
    cases hlk : O.seriesLookupOk tv with
    | false => simp [h0, htv, hmem, hlk, submittedIds, submitSelector]
    | true =>
      cases hadd : O.seriesAddOk tv <;>
        simp [h0, htv, hmem, hlk, hadd, submittedIds, submitSelector]

/-- Witness for `series_crossref_only_check`: with TMDb id 7 in the index
but TVDb id 9 absent, the step submits TVDb id 9. -/
theorem series_crossref_only_check_witness :
    submittedIds (titleStepSeries (mkConfig "k" ["US"]) oracleSeriesNamespaces [7] "A").calls
      = (if oracleSeriesNamespaces.seriesLookupOk 9 then [9] else []) ∧
    (if oracleSeriesNamespaces.seriesLookupOk 9 then [9] else ([] : List Nat)) = [9] :=
  ⟨(series_crossref_only_check (mkConfig "k" ["US"]) oracleSeriesNamespaces [7] "A"
      ⟨7, none⟩ 9 (by decide) (by decide) (by decide)).2 (by decide),
   by decide⟩

/-- Claim C9 counterexample: a run that passes validation completes but
reports neither a matched count nor a skipped count; the worker logs
only the unique-scraped-titles count and the added count. -/
theorem missing_counts_report_cex :
    (process_media_list (mkConfig "k" []) MediaType.movie oracleBase).isAborted = false ∧
    (process_media_list (mkConfig "k" []) MediaType.movie oracleBase).matchedReport = none ∧
    (process_media_list (mkConfig "k" []) MediaType.movie oracleBase).skippedReport = none := by
  refine ⟨by decide, by decide, by decide⟩

/-- Claim C9 (amended): every run that passes validation completes and
explicitly reports the count of unique scraped titles and the added
count (an explicit zero rather than silence), but it reports no matched
count and no skipped count. -/
theorem run_completion_reports (cfg : Config) (mt : MediaType) (O : Oracles)
    (h1 : cfg.general.tmdbApiKey ≠ "")
    (h2 : (if mt = MediaType.movie then cfg.radarr else cfg.sonarr).apiKey ≠ "") :
    (process_media_list cfg mt O).isAborted = false ∧
    (process_media_list cfg mt O).scrapedReport =
      some (scrapedTitles O cfg.general.countries).length ∧
    (process_media_list cfg mt O).addedReport =
      some (runLoop cfg mt O (initialIndex mt O)
        (scrapedTitles O cfg.general.countries)).added ∧
    (process_media_list cfg mt O).matchedReport = none ∧
    (process_media_list cfg mt O).skippedReport = none := by
  have hdone := process_done_of_keys cfg mt O h1 h2
  rw [hdone]
  exact ⟨rfl, rfl, rfl, rfl, rfl⟩

/-- Witness for `run_completion_reports`: a run whose only scraped title
fails to match still completes, reporting one scraped title and an
explicit zero added count. -/
theorem run_completion_reports_witness :
    (process_media_list (mkConfig "k" ["DE"]) MediaType.movie oracleIsolation).isAborted
      = false ∧
    (process_media_list (mkConfig "k" ["DE"]) MediaType.movie oracleIsolation).scrapedReport
      = some 1 ∧
    (process_media_list (mkConfig "k" ["DE"]) MediaType.movie oracleIsolation).addedReport
      = some 0 ∧
    (process_media_list (mkConfig "k" ["DE"]) MediaType.movie oracleIsolation).matchedReport
      = none ∧
    (process_media_list (mkConfig "k" ["DE"]) MediaType.movie oracleIsolation).skippedReport
      = none := by
  have h := run_completion_reports (mkConfig "k" ["DE"]) MediaType.movie oracleIsolation
    (by decide) (by decide)
  refine ⟨h.1, ?_, ?_, h.2.2.2.1, h.2.2.2.2⟩
  · rw [h.2.1]; decide
  · rw [h.2.2.1]; decide

/-- Claim C10: when the target library fetch fails with a transport
error the list-existing helpers return the empty index rather than an
error, the run proceeds with an empty ExistingLibraryIndex, and every
scraped title that resolves to a TMDb id has a Radarr add submitted for
that id during the run — including items actually present in the
(unreadable) target library. -/
theorem library_fetch_failure_empty_index (cfg : Config) (O : Oracles) (t : String)
    (i : Nat)
    (h1 : cfg.general.tmdbApiKey ≠ "") (h2 : cfg.radarr.apiKey ≠ "")
    (hlib : O.radarrLibrary = none)
    (ht : t ∈ scrapedTitles O cfg.general.countries)
    (hres : resolvedMovieId O t = some i) :
    radarr_lookup_existing none = [] ∧
    sonarr_lookup_existing none = [] ∧
    (process_media_list cfg MediaType.movie O).initialIds = [] ∧
    i ∈ submittedIds (process_media_list cfg MediaType.movie O).runTrace := by
  have h2m : (if MediaType.movie = MediaType.movie then cfg.radarr
      else cfg.sonarr).apiKey ≠ "" := by simpa using h2
  have hdone := process_done_of_keys cfg MediaType.movie O h1 h2m
  have hinit : initialIndex MediaType.movie O = [] := by
    simp [initialIndex, hlib, radarr_lookup_existing]
  refine ⟨rfl, rfl, ?_, ?_⟩
  · rw [hdone]
    show initialIndex MediaType.movie O = []
    exact hinit
  · rw [hdone]
    show i ∈ submittedIds (runReportOf cfg MediaType.movie O).trace
    rw [submittedIds_runReport, hinit]
    rcases runLoop_movie_submits cfg O (scrapedTitles O cfg.general.countries) [] t i
        ht hres with hmem | hsub
    · exact absurd hmem (List.not_mem_nil i)
    · exact hsub

/-- Witness for `library_fetch_failure_empty_index`: with the Radarr
library unreachable the run starts from an empty index and submits the
resolved id 1. -/
theorem library_fetch_failure_empty_index_witness :
    (process_media_list (mkConfig "k" ["US"]) MediaType.movie
      oracleLibraryDown).initialIds = [] ∧
    1 ∈ submittedIds (process_media_list (mkConfig "k" ["US"]) MediaType.movie
      oracleLibraryDown).runTrace := by
  have h := library_fetch_failure_empty_index (mkConfig "k" ["US"]) oracleLibraryDown "A" 1
    (by decide) (by decide) (by decide) (by decide) (by decide)
  exact ⟨h.2.2.1, h.2.2.2⟩
